import Mathlib

/-!
Verification of the SPUD save/load orchestration subsystem
(Source/SPUD/Private/SpudSubsystem.cpp).

The development shallow-embeds the save/load orchestrator state machine and
the per-zone persistence coordinator.  Each C++ method of USpudSubsystem that
the properties below refer to is translated into a pure Lean function on an
explicit subsystem state.  External collaborators (the engine world, weak
pointer liveness, file I/O outcomes, net mode, server check) are supplied
through an explicit environment record.  Observable interactions with those
collaborators (delegate broadcasts, storage reads/writes, store/release of
zone records, subscriptions) are recorded in an effect trace returned
alongside the updated state.

The USpudState class (the World State Container) is implemented outside the
file set under verification; its operations used by the subsystem are
modelled from the specification and are marked as such in their doc comments.
-/

namespace Spud

/-- Orchestrator session states, mirroring ESpudSystemState. -/
inductive ESpudSystemState where
  | Disabled
  | RunningIdle
  | SavingGame
  | LoadingGame
  | NewGameOnNextLevel
deriving DecidableEq, Repr

/-- Static data of a level actor relevant to the subsystem: its stable name,
whether it is a persistent object, and whether it is a runtime-spawned actor
(SpudPropertyUtil.IsPersistentObject / IsRuntimeActor). -/
structure ActorInfo where
  name : String
  persistent : Bool
  runtimeActor : Bool
deriving DecidableEq, Repr

/-- A ULevel as seen by the subsystem: its SPUD level name, the
bIsBeingRemoved engine flag, and its actor list. -/
structure Level where
  name : String
  bIsBeingRemoved : Bool
  actors : List ActorInfo
deriving DecidableEq, Repr

/-- An AActor reference as passed to OnActorDestroyed / LoadActorData:
its static data plus the result of GetLevel (which may be null). -/
structure Actor where
  info : ActorInfo
  level : Option Level
deriving DecidableEq, Repr

/-- Modelled from the spec: a Zone Record of the World State Container
(spec section 3): a serialized-state blob, present once the zone has been
stored at least once or loaded from a save, and the append-only set of
destroyed-entity identifiers. -/
structure SpudLevelData where
  blob : Option (List String)
  destroyed : List String
deriving DecidableEq, Repr

/-- Modelled from the spec: the World State Container (USpudState): a mapping
from zone identifier to Zone Record plus the persistent starting level
recorded in the save.  Global key-value data, title, timestamp and thumbnail
are tracked through the effect trace rather than materialized here. -/
structure SpudState where
  levelDataMap : List (String × SpudLevelData)
  persistentLevel : String
deriving DecidableEq, Repr

/-- Modelled from the spec: USpudState.CanRestoreLevel — true iff the World
State Container holds a non-empty Zone Record for that zone identifier
(spec section 4.2, query surface). -/
def SpudState.canRestoreLevel (st : SpudState) (name : String) : Bool :=
  (st.levelDataMap.lookup name).isSome

/-- Modelled from the spec: USpudState.ResetState — clears the World State
Container (all Zone Records and global content). -/
def SpudState.resetState (_st : SpudState) : SpudState :=
  { levelDataMap := [], persistentLevel := "" }

/-- Modelled from the spec: USpudState.StoreLevel — serialize the zone's live
entity state into its Zone Record, creating the record lazily and retaining
the destroyed-entity set. -/
def SpudState.storeLevel (st : SpudState) (lvl : Level) : SpudState :=
  let old := (st.levelDataMap.lookup lvl.name).getD { blob := none, destroyed := [] }
  { st with levelDataMap :=
      (lvl.name, { old with blob := some (lvl.actors.map ActorInfo.name) }) ::
        st.levelDataMap.filter (fun p => !(p.1 == lvl.name)) }

/-- Modelled from the spec: USpudState.ReleaseLevelData on a top-level map
transition — discard the zone's in-memory data, keeping no blob
(spec section 4.2, top-level map transition). -/
def SpudState.releaseLevelData (st : SpudState) (name : String) : SpudState :=
  { st with levelDataMap := st.levelDataMap.filter (fun p => !(p.1 == name)) }

/-- Modelled from the spec: USpudState.StoreLevelActorDestroyed — append the
entity's stable identifier to its zone's destroyed-entity set in the Zone
Record, creating the record lazily. -/
def SpudState.storeLevelActorDestroyed (st : SpudState) (actor lvlName : String) : SpudState :=
  let old := (st.levelDataMap.lookup lvlName).getD { blob := none, destroyed := [] }
  { st with levelDataMap :=
      (lvlName, { old with destroyed := old.destroyed ++ [actor] }) ::
        st.levelDataMap.filter (fun p => !(p.1 == lvlName)) }

/-- Observable interactions of the subsystem with its collaborators.

For a storage write, the two Booleans record whether the emitting code path
explicitly closes the archive and checks its error flags after flushing:
FinishSaveGame closes the archive and checks IsError/IsCriticalError
(SpudSubsystem.cpp lines 475-481), while the upgrade task's write-back does
neither (lines 1122-1126), so their write effects carry different flags. -/
inductive Effect where
  | preSaveGame (slot : String)
  | postSaveGame (slot : String) (ok : Bool)
  | preLoadGame (slot : String)
  | postLoadGame (slot : String) (ok : Bool)
  | preTravelToNewMap (map : String)
  | screenshotRequested
  | storeWorldGlobals
  | storeGlobalObject (obj : Nat) (name : Option String)
  | restoreGlobalObject (obj : Nat) (name : Option String)
  | preLevelStore (level : String)
  | levelStored (level : String) (release blocking : Bool)
  | postLevelStore (level : String) (ok : Bool)
  | releaseLevelData (level : String) (blocking : Bool)
  | resetState
  | storageWriteAttempt (slot : String) (explicitClose errorsChecked : Bool)
  | storageReadAttempt (slot : String)
  | preLoadLevelData (level : String)
  | asyncPostLoadStreamLevel (level : String)
  | preLoadStreamingLevel (level : String)
  | preUnloadStreamingLevel (level : String)
  | postUnloadStreamingLevel (level : String)
  | unsubscribeActorDestroyed (actor : String)
  | storeLevelActorDestroyed (actor : String) (level : String)
  | restoreActor (actor : String)
  | openLevel (map : String)
  | logError (context : String)
  | fileMoved (dst src : String)
  | upgradeCallbackRun (slot : String)
deriving DecidableEq, Repr

/-- Mutable state of USpudSubsystem that the verified methods read or write. -/
structure SpudSubsystem where
  CurrentState : ESpudSystemState
  bIsRestoringState : Bool
  bIsTearingDown : Bool
  bSaveLevelStateWhileTraveling : Bool
  SlotNameInProgress : String
  TitleInProgress : String
  ExtraInfoInProgress : Option Nat
  screenshotPending : Bool
  GlobalObjects : List Nat
  NamedGlobalObjects : List (String × Nat)
  LevelStreamingRestoreStates : List (String × Bool)
  activeState : SpudState
deriving DecidableEq, Repr

/-- Environment supplied by the engine and platform at a call: the ServerCheck
result, net mode, world validity and level list, weak-pointer liveness, and
the outcomes of file open/flush operations; loadedState is the container
deserialized by a successful archive read. -/
structure Env where
  serverOK : Bool
  netClient : Bool
  worldValid : Bool
  world : List Level
  alive : Nat → Bool
  writeOpenOK : Bool
  writeErr : Bool
  readOpenOK : Bool
  readErr : Bool
  loadedState : SpudState

/-- USpudSubsystem.SaveComplete: return to RunningIdle, broadcast PostSaveGame,
then clear the in-flight slot metadata. -/
def SaveComplete (sys : SpudSubsystem) (slot : String) (ok : Bool) :
    SpudSubsystem × List Effect :=
  ({ sys with CurrentState := ESpudSystemState.RunningIdle,
              SlotNameInProgress := "", TitleInProgress := "",
              ExtraInfoInProgress := none },
   [Effect.postSaveGame slot ok])

/-- USpudSubsystem.LoadComplete: return to RunningIdle, clear the restoring
flag and in-progress slot, broadcast PostLoadGame. -/
def LoadComplete (sys : SpudSubsystem) (slot : String) (ok : Bool) :
    SpudSubsystem × List Effect :=
  ({ sys with CurrentState := ESpudSystemState.RunningIdle,
              bIsRestoringState := false, SlotNameInProgress := "" },
   [Effect.postLoadGame slot ok])

/-- USpudSubsystem.StoreLevel: broadcast PreLevelStore, store the level into
the active state, broadcast PostLevelStore. -/
def StoreLevel (sys : SpudSubsystem) (lvl : Level) (bRelease bBlocking : Bool) :
    SpudSubsystem × List Effect :=
  ({ sys with activeState := sys.activeState.storeLevel lvl },
   [Effect.preLevelStore lvl.name, Effect.levelStored lvl.name bRelease bBlocking,
    Effect.postLevelStore lvl.name true])

/-- USpudSubsystem.StoreWorld: store every level of the world in order. -/
def StoreWorld (sys : SpudSubsystem) (world : List Level) (bRelease bBlocking : Bool) :
    SpudSubsystem × List Effect :=
  match world with
  | [] => (sys, [])
  | l :: rest =>
    let r1 := StoreLevel sys l bRelease bBlocking
    let r2 := StoreWorld r1.1 rest bRelease bBlocking
    (r2.1, r1.2 ++ r2.2)

/-- USpudSubsystem.UnsubscribeLevelObjectEvents: remove the OnActorDestroyed
subscription of every persistent, non-runtime actor of the level. -/
def UnsubscribeLevelObjectEvents (lvl : Level) : List Effect :=
  (lvl.actors.filter (fun a => a.persistent && !a.runtimeActor)).map
    (fun a => Effect.unsubscribeActorDestroyed a.name)

/-- USpudSubsystem.UnsubscribeAllLevelObjectEvents over the world's levels. -/
def UnsubscribeAllLevelObjectEvents (world : List Level) : List Effect :=
  match world with
  | [] => []
  | l :: rest => UnsubscribeLevelObjectEvents l ++ UnsubscribeAllLevelObjectEvents rest

/-- Loop body of the release branch of USpudSubsystem.OnPreLoadMap: call
ReleaseLevelData(levelName, true) for every level of the world. -/
def ReleaseAllLevelData (sys : SpudSubsystem) (world : List Level) :
    SpudSubsystem × List Effect :=
  match world with
  | [] => (sys, [])
  | l :: rest =>
    let s1 := { sys with activeState := sys.activeState.releaseLevelData l.name }
    let r := ReleaseAllLevelData s1 rest
    (r.1, Effect.releaseLevelData l.name true :: r.2)

/-- USpudSubsystem.FinishSaveGame (non-console file branch): store world
globals and all live global objects, store the world without releasing
(blocking), stamp metadata, then write the archive — explicitly closing it
and checking flush/close errors — and finish via SaveComplete. -/
def FinishSaveGame (sys : SpudSubsystem) (env : Env) (slot title : String)
    (extra : Option Nat) (shot : Bool) : SpudSubsystem × List Effect :=
  let fxG : List Effect :=
    Effect.storeWorldGlobals ::
      ((sys.GlobalObjects.filter env.alive).map (fun o => Effect.storeGlobalObject o none) ++
        (sys.NamedGlobalObjects.filter (fun p => env.alive p.2)).map
          (fun p => Effect.storeGlobalObject p.2 (some p.1)))
  let rW := StoreWorld sys env.world false true
  let saveOK := env.writeOpenOK && !env.writeErr
  let fxFile : List Effect :=
    if env.writeOpenOK then [Effect.storageWriteAttempt slot true true]
    else [Effect.logError ("create writer " ++ slot)]
  let rC := SaveComplete rW.1 slot saveOK
  let _ := (title, extra, shot)
  (rC.1, fxG ++ rW.2 ++ fxFile ++ rC.2)

/-- USpudSubsystem.SaveGame: server-check guard, blank-slot guard, single
flight guard (each failing via SaveComplete), then either queue a screenshot
request (suspending the pipeline) or finish synchronously. -/
def SaveGame (sys : SpudSubsystem) (env : Env) (slot title : String)
    (bTakeScreenshot : Bool) (extra : Option Nat) : SpudSubsystem × List Effect :=
  if env.serverOK = false then
    SaveComplete sys slot false
  else if slot = "" then
    SaveComplete sys slot false
  else if ¬sys.CurrentState = ESpudSystemState.RunningIdle then
    SaveComplete sys slot false
  else
    let sys1 := { sys with CurrentState := ESpudSystemState.SavingGame }
    if bTakeScreenshot then
      ({ sys1 with SlotNameInProgress := slot, TitleInProgress := title,
                   ExtraInfoInProgress := extra, screenshotPending := true },
       [Effect.preSaveGame slot, Effect.screenshotRequested])
    else
      let r := FinishSaveGame sys1 env slot title extra false
      (r.1, Effect.preSaveGame slot :: r.2)

/-- USpudSubsystem.OnScreenshotCaptured: remove the screenshot handler, crop,
compress, and finish the pending save with the in-progress metadata. -/
def OnScreenshotCaptured (sys : SpudSubsystem) (env : Env) :
    SpudSubsystem × List Effect :=
  FinishSaveGame { sys with screenshotPending := false } env
    sys.SlotNameInProgress sys.TitleInProgress sys.ExtraInfoInProgress true

/-- Events that can reach the save pipeline while it awaits the screenshot:
the screenshot-capture callback is the only callback the pipeline registers
(SpudSubsystem.cpp line 375); no timer or timeout is registered, so an
ordinary simulation tick does not advance the pipeline. -/
inductive PipelineEvent where
  | tick
  | screenshotCaptured
deriving DecidableEq, Repr

/-- One pipeline event: a tick leaves the subsystem untouched (the source
registers no timer for the save pipeline); the capture callback resumes the
pipeline through OnScreenshotCaptured. -/
def pipelineStep (sys : SpudSubsystem) (env : Env) :
    PipelineEvent → SpudSubsystem × List Effect
  | PipelineEvent.tick => (sys, [])
  | PipelineEvent.screenshotCaptured => OnScreenshotCaptured sys env

/-- Run a sequence of pipeline events, collecting the effect trace. -/
def runPipeline (sys : SpudSubsystem) (env : Env) :
    List PipelineEvent → SpudSubsystem × List Effect
  | [] => (sys, [])
  | e :: rest =>
    let r1 := pipelineStep sys env e
    let r2 := runPipeline r1.1 env rest
    (r2.1, r1.2 ++ r2.2)

/-- USpudSubsystem.HandleLevelUnloaded: always unsubscribe the level's actor
destruction events; store the level (releasing its data, non-blocking) unless
a load is in flight or the system is tearing down. -/
def HandleLevelUnloaded (sys : SpudSubsystem) (lvl : Level) :
    SpudSubsystem × List Effect :=
  let fx0 := UnsubscribeLevelObjectEvents lvl
  if ¬sys.CurrentState = ESpudSystemState.LoadingGame ∧ sys.bIsTearingDown = false then
    let r := StoreLevel sys lvl true false
    (r.1, fx0 ++ r.2)
  else
    (sys, fx0)

/-- USpudSubsystem.OnLevelBeginMakingInvisible: guard on server check and net
mode, then broadcast around HandleLevelUnloaded. -/
def OnLevelBeginMakingInvisible (sys : SpudSubsystem) (env : Env) (lvl : Level) :
    SpudSubsystem × List Effect :=
  if env.serverOK = false ∨ env.netClient = true then (sys, [])
  else
    let r := HandleLevelUnloaded sys lvl
    (r.1, Effect.preUnloadStreamingLevel lvl.name :: r.2 ++
          [Effect.postUnloadStreamingLevel lvl.name])

/-- USpudSubsystem.CanRestoreLevel, delegating to the active state. -/
def CanRestoreLevel (sys : SpudSubsystem) (lvl : Level) : Bool :=
  sys.activeState.canRestoreLevel lvl.name

/-- TMap.Add semantics for LevelStreamingRestoreStates. -/
def tmapAdd (m : List (String × Bool)) (k : String) (v : Bool) :
    List (String × Bool) :=
  (k, v) :: m.filter (fun p => !(p.1 == k))

/-- USpudSubsystem.HandleLevelLoaded: pre-load the level data on the calling
thread, then defer the actual restore to a game-thread task. -/
def HandleLevelLoaded (sys : SpudSubsystem) (levelName : String) :
    SpudSubsystem × List Effect :=
  (sys, [Effect.preLoadLevelData levelName, Effect.asyncPostLoadStreamLevel levelName])

/-- USpudSubsystem.OnLevelBeginMakingVisible: guard on server check and net
mode; return without any effect or state change when the active state has no
data for the level; otherwise mark the level as restoring, broadcast, and
hand off to HandleLevelLoaded. -/
def OnLevelBeginMakingVisible (sys : SpudSubsystem) (env : Env) (lvl : Level) :
    SpudSubsystem × List Effect :=
  if env.serverOK = false ∨ env.netClient = true then (sys, [])
  else if CanRestoreLevel sys lvl = false then (sys, [])
  else
    let sys1 := { sys with
      LevelStreamingRestoreStates := tmapAdd sys.LevelStreamingRestoreStates lvl.name true }
    let r := HandleLevelLoaded sys1 lvl.name
    (r.1, Effect.preLoadStreamingLevel lvl.name :: r.2)

/-- USpudSubsystem.OnActorDestroyed: record the destruction only while
RunningIdle and only when the owning level is present and not being removed
wholesale. -/
def OnActorDestroyed (sys : SpudSubsystem) (actor : Actor) :
    SpudSubsystem × List Effect :=
  if sys.CurrentState = ESpudSystemState.RunningIdle then
    match actor.level with
    | some lvl =>
      if lvl.bIsBeingRemoved = false then
        ({ sys with activeState :=
              sys.activeState.storeLevelActorDestroyed actor.info.name lvl.name },
         [Effect.storeLevelActorDestroyed actor.info.name lvl.name])
      else (sys, [])
    | none => (sys, [])
  else (sys, [])

/-- USpudSubsystem.OnPreLoadMap: guard on server check, broadcast
PreTravelToNewMap, and — only while RunningIdle — unsubscribe all level
events and then either store the whole world (releasing, blocking) when
configured to persist while traveling, or release every level's data. -/
def OnPreLoadMap (sys : SpudSubsystem) (env : Env) (mapName : String) :
    SpudSubsystem × List Effect :=
  if env.serverOK = false then (sys, [])
  else
    let fx0 : List Effect := [Effect.preTravelToNewMap mapName]
    if sys.CurrentState = ESpudSystemState.RunningIdle then
      let fxU := if env.worldValid then UnsubscribeAllLevelObjectEvents env.world else []
      if env.worldValid then
        if sys.bSaveLevelStateWhileTraveling then
          let r := StoreWorld sys env.world true true
          (r.1, fx0 ++ fxU ++ r.2)
        else
          let r := ReleaseAllLevelData sys env.world
          (r.1, fx0 ++ fxU ++ r.2)
      else (sys, fx0 ++ fxU)
    else (sys, fx0)

/-- USpudSubsystem.LoadGame: server-check and single-flight guards (failing
via LoadComplete); then enter LoadingGame, reset the container, attempt the
archive read (failing via LoadComplete on open or read errors), restore live
global objects, record the slot in progress, and optionally open the save's
persistent level. -/
def LoadGame (sys : SpudSubsystem) (env : Env) (slot : String)
    (bAutoTravelLevel : Bool) : SpudSubsystem × List Effect :=
  if env.serverOK = false then
    LoadComplete sys slot false
  else if ¬sys.CurrentState = ESpudSystemState.RunningIdle then
    LoadComplete sys slot false
  else
    let sys1 := { sys with CurrentState := ESpudSystemState.LoadingGame,
                           bIsRestoringState := true,
                           activeState := sys.activeState.resetState }
    let fx0 : List Effect :=
      [Effect.preLoadGame slot, Effect.resetState, Effect.storageReadAttempt slot]
    if env.readOpenOK = false then
      let r := LoadComplete sys1 slot false
      (r.1, fx0 ++ [Effect.logError ("open " ++ slot)] ++ r.2)
    else if env.readErr = true then
      let r := LoadComplete sys1 slot false
      (r.1, fx0 ++ [Effect.logError ("read " ++ slot)] ++ r.2)
    else
      let sys2 := { sys1 with activeState := env.loadedState }
      let fxG : List Effect :=
        (sys2.GlobalObjects.filter env.alive).map (fun o => Effect.restoreGlobalObject o none) ++
          (sys2.NamedGlobalObjects.filter (fun p => env.alive p.2)).map
            (fun p => Effect.restoreGlobalObject p.2 (some p.1))
      let sys3 := { sys2 with SlotNameInProgress := slot }
      if bAutoTravelLevel then
        (sys3, fx0 ++ fxG ++ [Effect.openLevel env.loadedState.persistentLevel])
      else
        (sys3, fx0 ++ fxG)

/-- USpudSubsystem.LoadActorData: under the server check, remember the current
state, optionally masquerade as LoadingGame during the single-actor restore,
restore exactly the given actor, clear the restoring flag and put the
remembered state back. -/
def LoadActorData (sys : SpudSubsystem) (env : Env) (actor : Actor)
    (bAsGameLoad : Bool) : SpudSubsystem × List Effect :=
  if env.serverOK = false then (sys, [])
  else
    let prevState := sys.CurrentState
    let sys1 := if bAsGameLoad
      then { sys with CurrentState := ESpudSystemState.LoadingGame } else sys
    let sys2 := { sys1 with bIsRestoringState := true }
    let sys3 := { sys2 with bIsRestoringState := false }
    ({ sys3 with CurrentState := prevState }, [Effect.restoreActor actor.info.name])

/-- Weak-pointer dereference: Get() yields the object only while it is alive. -/
def weakGet (alive : Nat → Bool) (o : Nat) : Option Nat :=
  if alive o then some o else none

/-- USpudSubsystem.RemovePersistentGlobalObject: remove the object from the
unnamed array, and remove every named entry whose dereferenced value is the
object. -/
def RemovePersistentGlobalObject (sys : SpudSubsystem) (env : Env) (obj : Nat) :
    SpudSubsystem :=
  { sys with
    GlobalObjects := sys.GlobalObjects.filter (fun o => !(o == obj)),
    NamedGlobalObjects :=
      sys.NamedGlobalObjects.filter (fun p => !(weakGet env.alive p.2 == some obj)) }

/-- Per-slot file conditions for the background upgrade task: whether the file
opens, whether the archive reports an error after the full read, whether the
save's user data model is outdated, what the upgrade callback returns, and
whether the output file opens for writing. -/
structure SaveFileEnv where
  name : String
  openOK : Bool
  readErr : Bool
  needsUpgrade : Bool
  upgradeOK : Bool
  outOpenOK : Bool
deriving DecidableEq, Repr

/-- One slot of FUpgradeAllSavesAction.FUpgradeTask.DoWork: open the file
(skipping silently when that fails), read it fully (logging and skipping the
slot on archive errors), and when an upgrade is wanted and the callback
succeeds, move the old file aside and write the upgraded state back — without
an explicit close and without checking flush/close errors. -/
def upgradeDoSlot (bUpgradeAlways : Bool) (f : SaveFileEnv) : List Effect :=
  if f.openOK = false then []
  else
    Effect.storageReadAttempt f.name ::
      (if f.readErr then [Effect.logError ("upgrade read " ++ f.name)]
       else if bUpgradeAlways || f.needsUpgrade then
         Effect.upgradeCallbackRun f.name ::
           (if f.upgradeOK then
              Effect.fileMoved (f.name ++ ".bak") f.name ::
                (if f.outOpenOK then [Effect.storageWriteAttempt f.name false false]
                 else [])
            else [])
       else [])

/-- Slot loop of FUpgradeTask.DoWork. -/
def upgradeDoFiles (bUpgradeAlways : Bool) : List SaveFileEnv → List Effect
  | [] => []
  | f :: rest => upgradeDoSlot bUpgradeAlways f ++ upgradeDoFiles bUpgradeAlways rest

/-- FUpgradeTask.DoWork: nothing happens when the upgrade callback is unbound;
otherwise every listed save file is processed in order on the worker. -/
def upgradeDoWork (cbBound bUpgradeAlways : Bool) (files : List SaveFileEnv) :
    List Effect :=
  if cbBound = false then [] else upgradeDoFiles bUpgradeAlways files

/-- Empty World State Container. -/
def emptyState : SpudState := { levelDataMap := [], persistentLevel := "" }

/-- A subsystem sitting in RunningIdle with empty registries. -/
def idleSys : SpudSubsystem :=
  { CurrentState := ESpudSystemState.RunningIdle,
    bIsRestoringState := false,
    bIsTearingDown := false,
    bSaveLevelStateWhileTraveling := true,
    SlotNameInProgress := "",
    TitleInProgress := "",
    ExtraInfoInProgress := none,
    screenshotPending := false,
    GlobalObjects := [],
    NamedGlobalObjects := [],
    LevelStreamingRestoreStates := [],
    activeState := emptyState }

/-- Benign environment: server check passes, the world is valid and empty,
all pointers live, all file operations succeed. -/
def baseEnv : Env :=
  { serverOK := true, netClient := false, worldValid := true, world := [],
    alive := fun _ => true, writeOpenOK := true, writeErr := false,
    readOpenOK := true, readErr := false, loadedState := emptyState }

/-- Subsystem state after requesting a thumbnail save to slot A from idle:
the pipeline is suspended awaiting the screenshot callback. -/
def c1mid : SpudSubsystem := (SaveGame idleSys baseEnv "A" "T" true none).1

/-- Subsystem state after a second save request (slot B) arrives while the
slot-A thumbnail save is still awaiting its screenshot. -/
def c1after : SpudSubsystem := (SaveGame c1mid baseEnv "B" "T" false none).1

/-- A level with one persistent authored actor. -/
def c2lvl : Level :=
  { name := "Z1", bIsBeingRemoved := false,
    actors := [{ name := "A1", persistent := true, runtimeActor := false }] }

/-- A level with no stored data in the empty container. -/
def c3lvl : Level := { name := "Z9", bIsBeingRemoved := false, actors := [] }

/-- Subsystem in RunningIdle while the teardown flag is set (Deinitialize has
run but EndGame has not). -/
def c4sys : SpudSubsystem := { idleSys with bIsTearingDown := true }

/-- A resident level that is not being removed. -/
def c4lvl : Level := { name := "Z1", bIsBeingRemoved := false, actors := [] }

/-- A persistent authored actor owned by c4lvl. -/
def c4actor : Actor :=
  { info := { name := "E1", persistent := true, runtimeActor := false },
    level := some c4lvl }

/-- Environment in which opening the save file for reading fails. -/
def c5env : Env := { baseEnv with readOpenOK := false }

/-- Subsystem with a load in flight. -/
def c6sys : SpudSubsystem := { idleSys with CurrentState := ESpudSystemState.LoadingGame }

/-- A resident level present in the world during a map transition. -/
def c6lvl : Level := { name := "Z1", bIsBeingRemoved := false, actors := [] }

/-- Environment whose world holds the single level c6lvl. -/
def c6env : Env := { baseEnv with world := [c6lvl] }

/-- A save file that opens and reads cleanly, needs an upgrade, whose upgrade
callback succeeds and whose output file opens. -/
def c8file : SaveFileEnv :=
  { name := "S1", openOK := true, readErr := false, needsUpgrade := true,
    upgradeOK := true, outOpenOK := true }

/-- A save file that opens but whose archive reports an error after reading. -/
def c8badfile : SaveFileEnv :=
  { name := "S0", openOK := true, readErr := true, needsUpgrade := true,
    upgradeOK := true, outOpenOK := true }

/-- Subsystem whose restoring flag is set when LoadActorData is entered. -/
def c9sys : SpudSubsystem := { idleSys with bIsRestoringState := true }

/-- Environment in which the server check fails (e.g. SPUD disabled or
no authoritative game mode). -/
def c9env : Env := { baseEnv with serverOK := false }

/-- An actor to restore on demand. -/
def c9actor : Actor :=
  { info := { name := "E9", persistent := true, runtimeActor := false },
    level := none }

/-- Subsystem with the object 7 registered both anonymously and under two
names, next to an unrelated object 8. -/
def c10sys : SpudSubsystem :=
  { idleSys with
    GlobalObjects := [7, 8],
    NamedGlobalObjects := [("hero", 7), ("ally", 8), ("hero2", 7)] }

theorem levelStored_not_mem_unsub (lvl : Level) (n : String) (r b : Bool) :
    Effect.levelStored n r b ∉ UnsubscribeLevelObjectEvents lvl := by
  intro hx
  simp [UnsubscribeLevelObjectEvents, List.mem_map] at hx

theorem unsub_mem (lvl : Level) (a : ActorInfo) (ha : a ∈ lvl.actors)
    (hp : a.persistent = true) (hr : a.runtimeActor = false) :
    Effect.unsubscribeActorDestroyed a.name ∈ UnsubscribeLevelObjectEvents lvl := by
  simp only [UnsubscribeLevelObjectEvents, List.mem_map]
  refine ⟨a, List.mem_filter.mpr ⟨ha, ?_⟩, rfl⟩
  simp [hp, hr]

theorem storeWorld_fx_mem (world : List Level) (sys : SpudSubsystem) (r b : Bool)
    (l : Level) (hl : l ∈ world) :
    Effect.levelStored l.name r b ∈ (StoreWorld sys world r b).2 := by
  induction world generalizing sys with
  | nil => cases hl
  | cons x rest ih =>
    cases hl with
    | head => simp [StoreWorld, StoreLevel]
    | tail _ h =>
      simp only [StoreWorld, List.mem_append]
      exact Or.inr (ih _ h)

theorem storeWorld_no_storeGlobal (world : List Level) (sys : SpudSubsystem) (r b : Bool)
    (o : Nat) (nm : Option String) :
    Effect.storeGlobalObject o nm ∉ (StoreWorld sys world r b).2 := by
  induction world generalizing sys with
  | nil => simp [StoreWorld]
  | cons x rest ih =>
    intro hmem
    simp only [StoreWorld, StoreLevel, List.mem_append, List.mem_cons] at hmem
    rcases hmem with (h | h | h | h) | h
    · exact Effect.noConfusion h
    · exact Effect.noConfusion h
    · exact Effect.noConfusion h
    · exact absurd h (List.not_mem_nil _)
    · exact ih _ h

theorem releaseAll_fx_mem (world : List Level) (sys : SpudSubsystem)
    (l : Level) (hl : l ∈ world) :
    Effect.releaseLevelData l.name true ∈ (ReleaseAllLevelData sys world).2 := by
  induction world generalizing sys with
  | nil => cases hl
  | cons x rest ih =>
    cases hl with
    | head => simp [ReleaseAllLevelData]
    | tail _ h =>
      simp only [ReleaseAllLevelData, List.mem_cons]
      exact Or.inr (ih _ h)

theorem upgradeDoFiles_mem (always : Bool) (files : List SaveFileEnv) (f : SaveFileEnv)
    (hf : f ∈ files) (x : Effect) (hx : x ∈ upgradeDoSlot always f) :
    x ∈ upgradeDoFiles always files := by
  induction files with
  | nil => cases hf
  | cons g rest ih =>
    cases hf with
    | head =>
      simp only [upgradeDoFiles, List.mem_append]
      exact Or.inl hx
    | tail _ h =>
      simp only [upgradeDoFiles, List.mem_append]
      exact Or.inr (ih h)

theorem runPipeline_ticks (evs : List PipelineEvent) (sys : SpudSubsystem) (env : Env)
    (h : ∀ e ∈ evs, e = PipelineEvent.tick) :
    runPipeline sys env evs = (sys, []) := by
  induction evs with
  | nil => rfl
  | cons e rest ih =>
    have he := h e (List.mem_cons_self e rest)
    subst he
    simp [runPipeline, pipelineStep, ih (fun x hx => h x (List.mem_cons_of_mem _ hx))]

theorem finishSave_write_mem (sys : SpudSubsystem) (env : Env) (slot title : String)
    (extra : Option Nat) (shot : Bool) (hw : env.writeOpenOK = true) :
    Effect.storageWriteAttempt slot true true ∈
      (FinishSaveGame sys env slot title extra shot).2 := by
  simp [FinishSaveGame, hw, List.mem_append]

theorem finishSave_storeGlobal_source (sys : SpudSubsystem) (env : Env)
    (slot title : String) (extra : Option Nat) (shot : Bool) (o : Nat) (nm : Option String)
    (hmem : Effect.storeGlobalObject o nm ∈ (FinishSaveGame sys env slot title extra shot).2) :
    o ∈ sys.GlobalObjects ∨ ∃ n, (n, o) ∈ sys.NamedGlobalObjects := by
  simp only [FinishSaveGame, SaveComplete] at hmem
  rcases List.mem_append.mp hmem with h1 | hC
  · rcases List.mem_append.mp h1 with h2 | hF
    · rcases List.mem_append.mp h2 with hG | hW
      · rcases List.mem_cons.mp hG with heq | hAB
        · exact Effect.noConfusion heq
        · rcases List.mem_append.mp hAB with hA | hB
          · rcases List.mem_map.mp hA with ⟨a, ha, heq⟩
            cases heq
            exact Or.inl (List.mem_filter.mp ha).1
          · rcases List.mem_map.mp hB with ⟨p, hp, heq⟩
            cases heq
            exact Or.inr ⟨p.1, (List.mem_filter.mp hp).1⟩
      · exact absurd hW (storeWorld_no_storeGlobal _ _ _ _ _ _)
    · by_cases hw : env.writeOpenOK = true <;> simp [hw] at hF
  · rcases List.mem_cons.mp hC with heq | hn
    · exact Effect.noConfusion heq
    · exact absurd hn (List.not_mem_nil _)

/-- C1: the claim that a save/load request rejected for concurrency leaves the
orchestrator state unchanged and the in-flight operation unaffected fails on
the code.  Starting idle, a thumbnail save to slot A suspends in SavingGame
with slot A in progress; a second save request to slot B is rejected through
SaveComplete, which resets the state to RunningIdle and clears the in-progress
slot, so the pending screenshot completion then saves to the empty slot name
and a third request passes the single-flight guard mid-save. -/
theorem c1_reject_resets_state_and_clears_slot :
    c1mid.CurrentState = ESpudSystemState.SavingGame ∧
    c1mid.SlotNameInProgress = "A" ∧
    c1after.CurrentState = ESpudSystemState.RunningIdle ∧
    c1after.SlotNameInProgress = "" ∧
    Effect.storageWriteAttempt "" true true ∈ (OnScreenshotCaptured c1after baseEnv).2 ∧
    Effect.storageWriteAttempt "C" true true ∈
      (SaveGame c1after baseEnv "C" "T" false none).2 := by
  decide

/-- C2: on a zone-unload notification the zone's live state is serialized into
its Zone Record iff the orchestrator is not LoadingGame and the system is not
tearing down, and in either case every persistent authored actor of the zone
is unsubscribed from destruction tracking. -/
theorem c2_unload_store_iff_not_loading_not_teardown (sys : SpudSubsystem) (lvl : Level) :
    (Effect.levelStored lvl.name true false ∈ (HandleLevelUnloaded sys lvl).2 ↔
      (¬sys.CurrentState = ESpudSystemState.LoadingGame ∧ sys.bIsTearingDown = false)) ∧
    ∀ a, a ∈ lvl.actors → a.persistent = true → a.runtimeActor = false →
      Effect.unsubscribeActorDestroyed a.name ∈ (HandleLevelUnloaded sys lvl).2 := by
  by_cases hc : ¬sys.CurrentState = ESpudSystemState.LoadingGame ∧ sys.bIsTearingDown = false
  · constructor
    · rw [HandleLevelUnloaded, if_pos hc]
      simp only [StoreLevel, List.mem_append, List.mem_cons]
      constructor
      · intro _; exact hc
      · intro _; exact Or.inr (Or.inr (Or.inl trivial))
    · intro a ha hp hr
      rw [HandleLevelUnloaded, if_pos hc]
      exact List.mem_append.mpr (Or.inl (unsub_mem lvl a ha hp hr))
  · constructor
    · rw [HandleLevelUnloaded, if_neg hc]
      constructor
      · intro hmem; exact absurd hmem (levelStored_not_mem_unsub lvl lvl.name true false)
      · intro h; exact absurd h hc
    · intro a ha hp hr
      rw [HandleLevelUnloaded, if_neg hc]
      exact unsub_mem lvl a ha hp hr

/-- C2 witness: with the subsystem idle and not tearing down, unloading a zone
with one persistent authored actor stores the zone and unsubscribes the
actor. -/
theorem c2_witness :
    Effect.levelStored "Z1" true false ∈ (HandleLevelUnloaded idleSys c2lvl).2 ∧
    Effect.unsubscribeActorDestroyed "A1" ∈ (HandleLevelUnloaded idleSys c2lvl).2 :=
  ⟨(c2_unload_store_iff_not_loading_not_teardown idleSys c2lvl).1.mpr (by decide),
   (c2_unload_store_iff_not_loading_not_teardown idleSys c2lvl).2
     { name := "A1", persistent := true, runtimeActor := false } (by decide) rfl rfl⟩

/-- C3: a zone-becoming-visible notification for a zone with no stored data in
the World State Container performs no restoration, produces no effects, and
leaves the whole subsystem state (the orchestrator state in particular)
unchanged. -/
theorem c3_visible_no_data_noop (sys : SpudSubsystem) (env : Env) (lvl : Level)
    (h : CanRestoreLevel sys lvl = false) :
    OnLevelBeginMakingVisible sys env lvl = (sys, []) := by
  rw [OnLevelBeginMakingVisible]
  by_cases hg : env.serverOK = false ∨ env.netClient = true
  · rw [if_pos hg]
  · rw [if_neg hg, if_pos h]

/-- C3 witness: the empty container cannot restore level Z9 and the
notification is a complete no-op. -/
theorem c3_witness : OnLevelBeginMakingVisible idleSys baseEnv c3lvl = (idleSys, []) :=
  c3_visible_no_data_noop idleSys baseEnv c3lvl (by decide)

/-- C4 counterexample: the claim says destructions received while tearing down
are never recorded, but OnActorDestroyed does not consult the teardown flag:
with the subsystem still RunningIdle after Deinitialize set bIsTearingDown,
the destruction of an actor in a level not being removed is recorded. -/
theorem c4_teardown_destruction_recorded :
    c4sys.bIsTearingDown = true ∧
    Effect.storeLevelActorDestroyed "E1" "Z1" ∈ (OnActorDestroyed c4sys c4actor).2 := by
  decide

/-- C4 amended: an entity-destroyed notification appends the entity to its
zone's destroyed set iff the orchestrator state is RunningIdle and the owning
zone is not being removed wholesale; the teardown flag is not consulted. -/
theorem c4_destroyed_recorded_iff (sys : SpudSubsystem) (a : Actor) (lvl : Level)
    (h : a.level = some lvl) :
    Effect.storeLevelActorDestroyed a.info.name lvl.name ∈ (OnActorDestroyed sys a).2 ↔
      (sys.CurrentState = ESpudSystemState.RunningIdle ∧ lvl.bIsBeingRemoved = false) := by
  rw [OnActorDestroyed]
  by_cases hs : sys.CurrentState = ESpudSystemState.RunningIdle
  · rw [if_pos hs, h]
    by_cases hb : lvl.bIsBeingRemoved = false
    · simp [hb, hs]
    · simp [hb, hs]
  · rw [if_neg hs]
    simp [hs]

/-- C4 witness: in RunningIdle with the level resident and not being removed,
the destruction of actor E1 is recorded against zone Z1. -/
theorem c4_witness :
    Effect.storeLevelActorDestroyed "E1" "Z1" ∈ (OnActorDestroyed idleSys c4actor).2 ↔
      (idleSys.CurrentState = ESpudSystemState.RunningIdle ∧ c4lvl.bIsBeingRemoved = false) :=
  c4_destroyed_recorded_iff idleSys c4actor c4lvl rfl

/-- C5 counterexample: the claim says a load request with an empty slot name is
rejected with no partial side effects, but LoadGame has no blank-slot guard:
from RunningIdle with the server check passing, loading slot "" resets the
World State Container and attempts the storage read. -/
theorem c5_empty_slot_not_rejected_upfront :
    Effect.resetState ∈ (LoadGame idleSys c5env "" false).2 ∧
    Effect.storageReadAttempt "" ∈ (LoadGame idleSys c5env "" false).2 := by
  decide

/-- C5 amended: a load request is guarded only by the server check and the
single-flight guard; an empty slot name is not rejected up front — the load
proceeds, resets the World State Container, attempts the storage read, and
(when the slot cannot be opened) fails at the read stage, returning to
RunningIdle with a failure completion. -/
theorem c5_empty_slot_proceeds_and_fails_at_read (sys : SpudSubsystem) (env : Env)
    (auto : Bool) (h1 : env.serverOK = true)
    (h2 : sys.CurrentState = ESpudSystemState.RunningIdle)
    (h3 : env.readOpenOK = false) :
    Effect.resetState ∈ (LoadGame sys env "" auto).2 ∧
    Effect.storageReadAttempt "" ∈ (LoadGame sys env "" auto).2 ∧
    Effect.postLoadGame "" false ∈ (LoadGame sys env "" auto).2 ∧
    (LoadGame sys env "" auto).1.CurrentState = ESpudSystemState.RunningIdle := by
  simp [LoadGame, h1, h2, h3, LoadComplete]

/-- C5 witness: loading the empty slot from the idle subsystem under a failing
file open resets the container, attempts the read, reports failure and ends
in RunningIdle. -/
theorem c5_witness :
    Effect.resetState ∈ (LoadGame idleSys c5env "" false).2 ∧
    Effect.storageReadAttempt "" ∈ (LoadGame idleSys c5env "" false).2 ∧
    Effect.postLoadGame "" false ∈ (LoadGame idleSys c5env "" false).2 ∧
    (LoadGame idleSys c5env "" false).1.CurrentState = ESpudSystemState.RunningIdle :=
  c5_empty_slot_proceeds_and_fails_at_read idleSys c5env false rfl rfl rfl

/-- C6 counterexample: the claim quantifies over every top-level map
transition, but OnPreLoadMap stores or releases only from RunningIdle: during
a map transition while LoadingGame, with persistence-while-traveling
configured, the resident zone Z1 is neither stored nor released. -/
theorem c6_transition_while_loading_no_store :
    c6sys.bSaveLevelStateWhileTraveling = true ∧
    (∀ r b : Bool, Effect.levelStored "Z1" r b ∉ (OnPreLoadMap c6sys c6env "M2").2) ∧
    (∀ b : Bool, Effect.releaseLevelData "Z1" b ∉ (OnPreLoadMap c6sys c6env "M2").2) := by
  decide

/-- C6 amended: on a top-level map transition while the orchestrator is
RunningIdle and the world is valid, if configured to persist level state while
traveling then every resident zone is stored releasing and blocking;
otherwise every resident zone's data is explicitly released. -/
theorem c6_preloadmap_idle_store_or_release (sys : SpudSubsystem) (env : Env) (m : String)
    (h1 : env.serverOK = true) (h2 : sys.CurrentState = ESpudSystemState.RunningIdle)
    (h3 : env.worldValid = true) :
    (sys.bSaveLevelStateWhileTraveling = true →
      ∀ l, l ∈ env.world →
        Effect.levelStored l.name true true ∈ (OnPreLoadMap sys env m).2) ∧
    (sys.bSaveLevelStateWhileTraveling = false →
      ∀ l, l ∈ env.world →
        Effect.releaseLevelData l.name true ∈ (OnPreLoadMap sys env m).2) := by
  constructor
  · intro hf l hl
    simp [OnPreLoadMap, h1, h2, h3, hf, List.mem_append]
    exact Or.inr (storeWorld_fx_mem env.world sys true true l hl)
  · intro hf l hl
    simp [OnPreLoadMap, h1, h2, h3, hf, List.mem_append]
    exact Or.inr (releaseAll_fx_mem env.world sys l hl)

/-- C6 witness: an idle transition with persistence configured stores zone Z1
releasing and blocking. -/
theorem c6_witness :
    Effect.levelStored "Z1" true true ∈ (OnPreLoadMap idleSys c6env "M2").2 :=
  (c6_preloadmap_idle_store_or_release idleSys c6env "M2" rfl rfl rfl).1 rfl c6lvl
    (by decide)

/-- C7: a thumbnail save from idle enters SavingGame, performs no storage
write up front, remains in SavingGame under any number of pipeline events
that are not the screenshot callback (no timer is registered, so no timeout
exists), and serializes and writes to storage exactly upon the capture
callback. -/
theorem c7_save_pipeline_waits_for_screenshot (sys : SpudSubsystem) (env : Env)
    (slot title : String) (extra : Option Nat)
    (hs : env.serverOK = true) (hslot : ¬slot = "")
    (hidle : sys.CurrentState = ESpudSystemState.RunningIdle)
    (hw : env.writeOpenOK = true) :
    (SaveGame sys env slot title true extra).1.CurrentState = ESpudSystemState.SavingGame ∧
    (∀ s : String, ∀ c e : Bool,
      Effect.storageWriteAttempt s c e ∉ (SaveGame sys env slot title true extra).2) ∧
    (∀ evs : List PipelineEvent, (∀ ev ∈ evs, ev = PipelineEvent.tick) →
      (runPipeline (SaveGame sys env slot title true extra).1 env evs).1.CurrentState =
          ESpudSystemState.SavingGame ∧
        ∀ s : String, ∀ c e : Bool,
          Effect.storageWriteAttempt s c e ∉
            (runPipeline (SaveGame sys env slot title true extra).1 env evs).2) ∧
    Effect.storageWriteAttempt slot true true ∈
      (pipelineStep (SaveGame sys env slot title true extra).1 env
        PipelineEvent.screenshotCaptured).2 := by
  refine ⟨?_, ?_, ?_, ?_⟩
  · simp [SaveGame, hs, hslot, hidle]
  · intro s c e
    simp [SaveGame, hs, hslot, hidle]
  · intro evs hev
    rw [runPipeline_ticks evs _ env hev]
    constructor
    · simp [SaveGame, hs, hslot, hidle]
    · intro s c e
      simp
  · have hslotIP : (SaveGame sys env slot title true extra).1.SlotNameInProgress = slot := by
      simp [SaveGame, hs, hslot, hidle]
    simp only [pipelineStep, OnScreenshotCaptured]
    rw [hslotIP]
    exact finishSave_write_mem _ _ _ _ _ _ hw

/-- C7 witness: a thumbnail save to S1 from idle stays in SavingGame across
two ticks and writes S1 exactly on the screenshot callback. -/
theorem c7_witness :
    (SaveGame idleSys baseEnv "S1" "T" true none).1.CurrentState =
        ESpudSystemState.SavingGame ∧
    (runPipeline (SaveGame idleSys baseEnv "S1" "T" true none).1 baseEnv
        [PipelineEvent.tick, PipelineEvent.tick]).1.CurrentState =
        ESpudSystemState.SavingGame ∧
    Effect.storageWriteAttempt "S1" true true ∈
      (pipelineStep (SaveGame idleSys baseEnv "S1" "T" true none).1 baseEnv
        PipelineEvent.screenshotCaptured).2 := by
  have h := c7_save_pipeline_waits_for_screenshot idleSys baseEnv "S1" "T" none rfl
    (by decide) rfl rfl
  exact ⟨h.1, (h.2.2.1 [PipelineEvent.tick, PipelineEvent.tick] (by decide)).1, h.2.2.2⟩

/-- C8 counterexample: the claim says the upgraded blob is written back with
the archive explicitly closed and flush/close errors checked, but the upgrade
task's write-back performs no explicit close and no error check: for a slot
whose upgrade succeeds, the only write effect carries explicitClose = false
and errorsChecked = false. -/
theorem c8_upgrade_write_without_close_check :
    Effect.storageWriteAttempt "S1" true true ∉ upgradeDoWork true false [c8file] ∧
    Effect.storageWriteAttempt "S1" false false ∈ upgradeDoWork true false [c8file] := by
  decide

/-- C8 amended: in the background upgrade batch, a slot whose archive read
fails is logged and skipped (no write for it) without aborting the batch, and
a slot whose upgrade callback succeeds has its blob written back from the
worker — but without an explicit archive close and without flush/close error
checking. -/
theorem c8_upgrade_batch_behavior (always : Bool) (files : List SaveFileEnv) :
    (∀ f, f ∈ files → f.openOK = true → f.readErr = true →
      Effect.logError ("upgrade read " ++ f.name) ∈ upgradeDoWork true always files ∧
      ∀ c e : Bool, Effect.storageWriteAttempt f.name c e ∉ upgradeDoSlot always f) ∧
    (∀ f, f ∈ files → f.openOK = true → f.readErr = false →
      (always || f.needsUpgrade) = true → f.upgradeOK = true → f.outOpenOK = true →
      Effect.storageWriteAttempt f.name false false ∈ upgradeDoWork true always files) := by
  constructor
  · intro f hf hopen herr
    constructor
    · rw [upgradeDoWork, if_neg (by simp)]
      refine upgradeDoFiles_mem always files f hf _ ?_
      simp [upgradeDoSlot, hopen, herr]
    · intro c e
      simp [upgradeDoSlot, hopen, herr]
  · intro f hf hopen herr hup hok hout
    rw [upgradeDoWork, if_neg (by simp)]
    refine upgradeDoFiles_mem always files f hf _ ?_
    simp [upgradeDoSlot, hopen, herr, hup, hok, hout]

/-- C8 witness: a batch of a slot with a read error followed by an upgradable
slot logs and skips the first and writes back the second without close/error
checking. -/
theorem c8_witness :
    Effect.logError ("upgrade read " ++ "S0") ∈
      upgradeDoWork true false [c8badfile, c8file] ∧
    (∀ c e : Bool,
      Effect.storageWriteAttempt "S0" c e ∉ upgradeDoSlot false c8badfile) ∧
    Effect.storageWriteAttempt "S1" false false ∈
      upgradeDoWork true false [c8badfile, c8file] := by
  have h := c8_upgrade_batch_behavior false [c8badfile, c8file]
  exact ⟨(h.1 c8badfile (by decide) rfl rfl).1, (h.1 c8badfile (by decide) rfl rfl).2,
    h.2 c8file (by decide) rfl rfl rfl rfl rfl⟩

/-- C9 counterexample: the claim quantifies over every call, but a call that
fails the server check is an early return that leaves the restoring flag as
it was: entered with the flag set, LoadActorData returns with the flag still
true. -/
theorem c9_servercheck_fail_flag_persists :
    (LoadActorData c9sys c9env c9actor false).1.bIsRestoringState = true := by
  decide

/-- C9 amended: for every call to LoadActorData that passes the server check,
with either value of bAsGameLoad, the orchestrator state after the call
equals the state before, the restoring flag is false afterwards, and exactly
the given actor is restored. -/
theorem c9_loadactordata_preserves_state (sys : SpudSubsystem) (env : Env) (a : Actor)
    (g : Bool) (h : env.serverOK = true) :
    (LoadActorData sys env a g).1.CurrentState = sys.CurrentState ∧
    (LoadActorData sys env a g).1.bIsRestoringState = false ∧
    (LoadActorData sys env a g).2 = [Effect.restoreActor a.info.name] := by
  cases g <;> simp [LoadActorData, h]

/-- C9 witness: a game-load-flavoured single-actor restore from idle returns
to RunningIdle with the restoring flag cleared, restoring exactly E9. -/
theorem c9_witness :
    (LoadActorData idleSys baseEnv c9actor true).1.CurrentState = idleSys.CurrentState ∧
    (LoadActorData idleSys baseEnv c9actor true).1.bIsRestoringState = false ∧
    (LoadActorData idleSys baseEnv c9actor true).2 = [Effect.restoreActor "E9"] :=
  c9_loadactordata_preserves_state idleSys baseEnv c9actor true rfl

/-- C10: after unregistering a live global object, no registry entry
referencing it remains — it is gone from the unnamed array and from every
named entry — and a subsequent save pipeline emits no global-object store for
it, under any environment. -/
theorem c10_remove_global_object_complete (sys : SpudSubsystem) (env : Env) (obj : Nat)
    (h : env.alive obj = true) :
    obj ∉ (RemovePersistentGlobalObject sys env obj).GlobalObjects ∧
    (∀ p, p ∈ (RemovePersistentGlobalObject sys env obj).NamedGlobalObjects →
      ¬p.2 = obj) ∧
    (∀ env2 : Env, ∀ slot title : String, ∀ extra : Option Nat, ∀ shot : Bool,
      ∀ nm : Option String,
      Effect.storeGlobalObject obj nm ∉
        (FinishSaveGame (RemovePersistentGlobalObject sys env obj)
          env2 slot title extra shot).2) := by
  refine ⟨?_, ?_, ?_⟩
  · intro hmem
    have hc := (List.mem_filter.mp hmem).2
    simp at hc
  · intro p hp heq
    have hc := (List.mem_filter.mp hp).2
    rw [heq] at hc
    simp [weakGet, h] at hc
  · intro env2 slot title extra shot nm hmem
    rcases finishSave_storeGlobal_source _ _ _ _ _ _ _ _ hmem with hg | ⟨n, hn⟩
    · have hc := (List.mem_filter.mp hg).2
      simp at hc
    · have hc := (List.mem_filter.mp hn).2
      simp [weakGet, h] at hc

/-- C10 witness: unregistering live object 7 from a registry holding it
anonymously and under two names leaves no reference to it, and a concrete
save stores nothing for it. -/
theorem c10_witness :
    7 ∉ (RemovePersistentGlobalObject c10sys baseEnv 7).GlobalObjects ∧
    (¬("hero", 7).2 = 7 → False) ∧
    Effect.storeGlobalObject 7 none ∉
      (FinishSaveGame (RemovePersistentGlobalObject c10sys baseEnv 7)
        baseEnv "S" "T" none false).2 := by
  have h := c10_remove_global_object_complete c10sys baseEnv 7 rfl
  exact ⟨h.1, fun hne => hne rfl, h.2.2 baseEnv "S" "T" none false none⟩

end Spud
